import Mathlib

/-!
# Verification of the polls application core logic

Shallow embedding of the poll/vote business logic of the repository:

* `src/lib/database.ts` — repository functions `createPoll`, `castVote`,
  `getPoll`/`getPolls` vote totals, and the utility functions
  `isPollActive`, `calculateVotePercentage`, `getPollStatus`;
* `src/app/api/polls/route.ts` — the poll-creation route's input validation;
* `src/app/api/polls/vote/route.ts` — the vote route's validation and
  delete-then-insert vote logic;
* `src/supabase/schema.sql` — the `polls_with_stats` and
  `poll_options_with_stats` views used for vote counts.

Conventions of the embedding:

* JavaScript `Date` values are epoch milliseconds, modelled as `Int`;
  every function that calls `new Date()` takes the current instant `now`
  as an explicit argument.
* Database rows are records in lists; store-generated primary keys are
  threaded as explicit arguments where an insert produces them, and
  store-generated columns that no modelled code reads (row ids of votes,
  `created_at`/`updated_at` timestamps) are omitted from the row records.
* Fallible store operations whose failure the modelled code handles are
  parameterised by an explicit failure flag (the store is the oracle);
  operations whose results the code ignores (best-effort deletes) are
  modelled as always succeeding, exactly as the code assumes.  The one
  insert whose store-side behaviour the claims exercise — the votes
  insert — is modelled from `schema.sql`'s BEFORE-INSERT triggers
  (`validate_option_poll_relationship`, `validate_vote`): the triggers
  run per row, each row's checks see the rows inserted earlier in the
  same statement, and a raised exception aborts the whole statement
  (no rows persist).
* JavaScript `String.prototype.trim` and `toLowerCase` are modelled by
  `jsTrim` (whitespace stripping on both ends) and `jsToLower`.
-/

namespace Polls

/-- Whitespace for the purposes of `String.prototype.trim`
(ASCII whitespace; the model restricts JS's Unicode whitespace class
to the characters that can occur in the claims' inputs). -/
def isJsWhitespace (c : Char) : Bool :=
  c = ' ' || c = '\t' || c = '\n' || c = '\r' || c = '\x0b' || c = '\x0c'

/-- `trim` on a character list: drop whitespace from both ends. -/
def trimChars (l : List Char) : List Char :=
  ((l.dropWhile isJsWhitespace).reverse.dropWhile isJsWhitespace).reverse

/-- Model of JavaScript `String.prototype.trim`. -/
def jsTrim (s : String) : String :=
  ⟨trimChars s.data⟩

/-- Model of JavaScript `String.prototype.toLowerCase` (ASCII case
mapping, applied character by character). -/
def jsToLower (s : String) : String :=
  ⟨s.data.map Char.toLower⟩

/-- A row of the `polls` table, restricted to the columns the modelled
code reads (`title` and `creator_id` are carried along for fidelity of
`createPoll`'s insert; `description`/`category_id` are never read by the
verified logic). `expires_at` is `none` for SQL `NULL`. -/
structure DbPoll where
  id : String
  title : String
  creator_id : String
  is_active : Bool
  allow_multiple_choices : Bool
  expires_at : Option Int
  deriving Repr, DecidableEq

/-- A row of the `poll_options` table (store-generated timestamps omitted). -/
structure DbPollOption where
  id : String
  poll_id : String
  text : String
  order : Nat
  deriving Repr, DecidableEq

/-- A row of the `votes` table, restricted to the columns the code writes
in its insert payloads (`DbVoteInsert`); the store-generated primary key
and `created_at` are omitted — view counts `COUNT(v.id)` over distinct
primary keys coincide with row counts. -/
structure DbVote where
  user_id : String
  poll_id : String
  option_id : String
  deriving Repr, DecidableEq

/-- The backing store: the three tables the verified logic touches. -/
structure Store where
  polls : List DbPoll
  options : List DbPollOption
  votes : List DbVote
  deriving Repr, DecidableEq

/-! ## Utility functions (`src/lib/database.ts`, lines 529–553) -/

/-- Model of the truthiness test `poll.expires_at && new Date(poll.expires_at) <= new Date()`
(used by `getPollStatus`). -/
def expiresAtLe (e : Option Int) (now : Int) : Bool :=
  match e with
  | some t => t ≤ now
  | none => false

/-- Model of `poll.expires_at && new Date(poll.expires_at) < new Date()`
(the expiry gate of `castVote` and of the vote route). -/
def expiresAtLt (e : Option Int) (now : Int) : Bool :=
  match e with
  | some t => t < now
  | none => false

/-- `isPollActive` (`database.ts` 532–536):
`if (!poll.is_active) return false; if (!poll.expires_at) return true;
return new Date(poll.expires_at) > new Date()`. -/
def isPollActive (poll : DbPoll) (now : Int) : Bool :=
  if !poll.is_active then false
  else
    match poll.expires_at with
    | none => true
    | some t => t > now

/-- Result type of `getPollStatus`. -/
inductive PollStatus where
  | active
  | expired
  | inactive
  deriving Repr, DecidableEq

/-- `getPollStatus` (`database.ts` 549–553):
`if (!poll.is_active) return 'inactive';
if (poll.expires_at && new Date(poll.expires_at) <= new Date()) return 'expired';
return 'active'`. -/
def getPollStatus (poll : DbPoll) (now : Int) : PollStatus :=
  if !poll.is_active then .inactive
  else if expiresAtLe poll.expires_at now then .expired
  else .active

/-- `calculateVotePercentage` (`database.ts` 541–544):
`if (totalVotes === 0) return 0; return Math.round((optionVotes / totalVotes) * 100)`.
The JS number arithmetic is modelled exactly over `ℚ`; `Math.round x`
is `⌊x + 1/2⌋` (round to nearest, ties toward `+∞`), which is Mathlib's
`round` on `ℚ`. -/
def calculateVotePercentage (optionVotes totalVotes : Int) : Int :=
  if totalVotes = 0 then 0
  else round ((optionVotes : ℚ) / (totalVotes : ℚ) * 100)

/-! ## `castVote` (`src/lib/database.ts`, lines 331–384) -/

/-- The request body type `VoteForm` as consumed by `castVote`. -/
structure VoteForm where
  option_ids : List String
  deriving Repr, DecidableEq

/-- Errors surfaced by `castVote`: the passed-through store error of the
poll lookup, the two business-rule errors it constructs
(`code: 'POLL_INACTIVE'`, `code: 'POLL_EXPIRED'`), and the
passed-through store error of the votes insert (a trigger or
foreign-key exception raised by the store). -/
inductive CastVoteErr where
  | notFound
  | pollInactive
  | pollExpired
  | insertFailed
  deriving Repr, DecidableEq

/-- `.from('polls').select('*').eq('id', pollId).single()`. -/
def findPoll (s : Store) (pollId : String) : Option DbPoll :=
  s.polls.find? (fun p => p.id = pollId)

/-- `.from('votes').delete().eq('poll_id', pollId).eq('user_id', userId)`. -/
def deleteUserVotes (s : Store) (pollId userId : String) : Store :=
  { s with votes := s.votes.filter (fun v => !(v.poll_id = pollId && v.user_id = userId)) }

/-- The insert payload `voteData.option_ids.map(optionId => ({user_id, poll_id, option_id}))`. -/
def votesData (pollId : String) (optionIds : List String) (userId : String) : List DbVote :=
  optionIds.map (fun optionId => { user_id := userId, poll_id := pollId, option_id := optionId })

/-- The store-side BEFORE-INSERT checks for one `votes` row
(`schema.sql` 188–252, triggers in name order):
`validate_option_poll_relationship` — the referenced option must exist
and belong to the row's poll (this also covers the `option_id` foreign
key); `validate_vote` — the row's poll must exist (its foreign key),
be active, not be strictly past its expiry (`expires_at < NOW()`), and,
when it disallows multiple choices, the inserting user must not already
have a vote on it — votes inserted earlier in the same statement
included.  `none` models a raised exception. -/
def insertVoteRow (s : Store) (r : DbVote) (now : Int) : Option Store :=
  if !(s.options.any (fun o => o.id = r.option_id && o.poll_id = r.poll_id)) then none
  else
    match findPoll s r.poll_id with
    | none => none
    | some poll =>
      if !poll.is_active then none
      else if expiresAtLt poll.expires_at now then none
      else if !poll.allow_multiple_choices &&
          s.votes.any (fun v => v.user_id = r.user_id && v.poll_id = r.poll_id) then none
      else some { s with votes := s.votes ++ [r] }

/-- A multi-row `INSERT INTO votes`: the rows are processed in order,
each row's triggers seeing the rows already inserted by this statement;
an exception aborts the whole statement, so `none` leaves no row
persisted. -/
def insertVotes (s : Store) (rows : List DbVote) (now : Int) : Option Store :=
  match rows with
  | [] => some s
  | r :: rest =>
    match insertVoteRow s r now with
    | none => none
    | some s1 => insertVotes s1 rest now

/-- `castVote` (`database.ts` 331–384): look the poll up, reject if it is
not active or its expiry is strictly in the past, delete the user's
existing votes on the poll when multiple choices are not allowed, then
insert one vote row per selected option id in one batch.  The insert is
the store's INSERT statement with its triggers (`insertVotes`); on its
failure the store error is returned with no row inserted — the
preceding delete, a separate earlier statement, keeps its effect. -/
def castVote (s : Store) (pollId : String) (voteData : VoteForm) (userId : String)
    (now : Int) : Except CastVoteErr (List DbVote) × Store :=
  match findPoll s pollId with
  | none => (.error .notFound, s)
  | some poll =>
    if !poll.is_active then (.error .pollInactive, s)
    else if expiresAtLt poll.expires_at now then (.error .pollExpired, s)
    else
      let s1 := if !poll.allow_multiple_choices then deleteUserVotes s pollId userId else s
      let newVotes := votesData pollId voteData.option_ids userId
      match insertVotes s1 newVotes now with
      | some s2 => (.ok newVotes, s2)
      | none => (.error .insertFailed, s1)

/-! ## The vote route (`src/app/api/polls/vote/route.ts`, `POST`)

The route's logic after authentication succeeds: body-shape check,
poll lookup, active/expiry gates, the multiple-choice gate,
delete-then-insert.  (Authentication and JSON parsing are I/O plumbing
outside the embedded logic.) -/

/-- The outcomes of the vote route, one per `NextResponse` the handler
can return after authentication. -/
inductive VoteOutcome where
  /-- 400 `pollId and optionIds are required`. -/
  | badRequest
  /-- 404 `Poll not found`. -/
  | pollNotFound
  /-- 400 `Poll is not active`. -/
  | pollInactive
  /-- 400 `Poll has expired`. -/
  | pollExpired
  /-- 400 `Multiple selections are not allowed`. -/
  | multipleNotAllowed
  /-- 500, the insert's store error passed through. -/
  | insertFailed
  /-- 200 `Vote recorded`. -/
  | ok
  deriving Repr, DecidableEq

/-- The vote route `POST` (`vote/route.ts` 37–108).  `pollId = ""` models a
falsy `pollId` in the body.  The vote insert's store success is modelled by
`insertFails = false`; on insert failure the route reports the error after
the single-choice deletion already ran, exactly as in the code. -/
def votePost (s : Store) (pollId : String) (optionIds : List String) (userId : String)
    (now : Int) (insertFails : Bool) : VoteOutcome × Store :=
  if pollId = "" || optionIds.isEmpty then (.badRequest, s)
  else
    match findPoll s pollId with
    | none => (.pollNotFound, s)
    | some pollRow =>
      if !pollRow.is_active then (.pollInactive, s)
      else if expiresAtLt pollRow.expires_at now then (.pollExpired, s)
      else if !pollRow.allow_multiple_choices && optionIds.length > 1 then
        (.multipleNotAllowed, s)
      else
        let s1 := if !pollRow.allow_multiple_choices then deleteUserVotes s pollId userId else s
        if insertFails then (.insertFailed, s1)
        else (.ok, { s1 with votes := s1.votes ++ votesData pollId optionIds userId })

/-- Number of vote rows by user `u` on poll `p` in the store — the
quantity the single-choice invariant bounds. -/
def countUserPollVotes (s : Store) (u p : String) : Nat :=
  (s.votes.filter (fun v => v.user_id = u && v.poll_id = p)).length

/-- Run a sequence of vote-route submissions by one user on one poll,
one selection list per submission. -/
def runVoteSubs (s : Store) (p u : String) (now : Int) : List (List String) → Store
  | [] => s
  | ids :: rest => runVoteSubs (votePost s p ids u now false).2 p u now rest

/-- Run a sequence of `castVote` submissions by one user on one poll,
one selection list per submission. -/
def runCastVotes (s : Store) (p u : String) (now : Int) : List (List String) → Store
  | [] => s
  | ids :: rest => runCastVotes (castVote s p { option_ids := ids } u now).2 p u now rest

/-! ## `createPoll` (`src/lib/database.ts`, lines 73–134) -/

/-- The `CreatePollForm` data `createPoll` receives (after the route's
validation and normalisation).  `expires_at` is the parsed date. -/
structure CreatePollForm where
  title : String
  description : Option String
  options : List String
  allow_multiple_choices : Bool
  expires_at : Option Int
  deriving Repr, DecidableEq

/-- `createPoll`'s failure cases: the poll insert's store error or the
option insert's store error, each passed through to the caller. -/
inductive CreatePollErr where
  | pollInsertError
  | optionsInsertError
  deriving Repr, DecidableEq

/-- The option-row payload of `createPoll`
(`pollData.options.map((text, index) => ({poll_id, text: text.trim(), order: index}))`),
with the store-generated row ids threaded in as `newIds` (one per row)
and the running `index` made explicit. -/
def optionsData (pollId : String) : List String → List String → Nat → List DbPollOption
  | text :: texts, oid :: oids, index =>
      { id := oid, poll_id := pollId, text := jsTrim text, order := index }
        :: optionsData pollId texts oids (index + 1)
  | _, _, _ => []

/-- `createPoll` (`database.ts` 73–134): insert the poll row (active by
schema default), insert the option rows, and on option-insert failure
delete the just-created poll (`.from('polls').delete().eq('id', poll.id)`)
and return the store error.  Store-generated keys are threaded as
`newPollId` / `newOptionIds`; the two inserts' store failures are the
oracle flags.  On success it returns the poll row and the inserted option
rows (each rendered with `vote_count: 0` by the code, which the row list
captures as there are no votes yet). -/
def createPoll (s : Store) (pollData : CreatePollForm) (userId : String)
    (newPollId : String) (newOptionIds : List String)
    (pollInsertFails optionsInsertFails : Bool) :
    Except CreatePollErr (DbPoll × List DbPollOption) × Store :=
  if pollInsertFails then (.error .pollInsertError, s)
  else
    let poll : DbPoll :=
      { id := newPollId
        title := pollData.title
        creator_id := userId
        is_active := true
        allow_multiple_choices := pollData.allow_multiple_choices
        expires_at := pollData.expires_at }
    let s1 := { s with polls := s.polls ++ [poll] }
    let opts := optionsData newPollId pollData.options newOptionIds 0
    if optionsInsertFails then
      let s2 := { s1 with polls := s1.polls.filter (fun q => !(q.id = newPollId)) }
      (.error .optionsInsertError, s2)
    else
      (.ok (poll, opts), { s1 with options := s1.options ++ opts })

/-! ## The poll-creation route's validation (`src/app/api/polls/route.ts`, `POST`)

The validation sequence the route runs after authentication, up to the
call of the repository create function.  On success it yields the
normalised data that call receives: the trimmed title and
`cleanedOptions`. -/

/-- The request body `CreatePollData` (fields the validation reads). -/
structure CreatePollData where
  title : String
  options : List String
  allowMultipleChoices : Bool
  expiresAt : Option Int
  deriving Repr, DecidableEq

/-- The 400 responses of the creation route's validation, one per check. -/
inductive CreateValidationErr where
  /-- `Poll title is required`. -/
  | emptyTitle
  /-- `At least 2 options are required`. -/
  | tooFewOptions
  /-- `Maximum 10 options allowed`. -/
  | tooManyOptions
  /-- `At least 2 non-empty options are required`. -/
  | tooFewNonEmptyOptions
  /-- `All options must be unique`. -/
  | duplicateOptions
  /-- `Expiry date must be in the future`. -/
  | expiryInPast
  deriving Repr, DecidableEq

/-- `new Set(l).size` for a list of strings: the number of distinct
elements. -/
def setSize (l : List String) : Nat :=
  l.dedup.length

/-- `const cleanedOptions = options.map(opt => opt.trim()).filter(Boolean)`
(`filter(Boolean)` on strings drops exactly the empty string). -/
def cleanedOptions (options : List String) : List String :=
  (options.map jsTrim).filter (fun o => !(o = ""))

/-- The validation chain of the creation route
(`src/app/api/polls/route.ts` 35–84): title required, 2–10 options,
`cleanedOptions` with at least 2 surviving, case-insensitive uniqueness
of `cleanedOptions`, and a strictly-future expiry.  Returns the trimmed
title and `cleanedOptions` handed to the create call. -/
def validateCreatePollRequest (body : CreatePollData) (now : Int) :
    Except CreateValidationErr (String × List String) :=
  if jsTrim body.title = "" then .error .emptyTitle
  else if body.options.length < 2 then .error .tooFewOptions
  else if body.options.length > 10 then .error .tooManyOptions
  else if (cleanedOptions body.options).length < 2 then .error .tooFewNonEmptyOptions
  else if !(setSize ((cleanedOptions body.options).map jsToLower) =
      (cleanedOptions body.options).length) then
    .error .duplicateOptions
  else
    match body.expiresAt with
    | some t =>
        if t ≤ now then .error .expiryInPast
        else .ok (jsTrim body.title, cleanedOptions body.options)
    | none => .ok (jsTrim body.title, cleanedOptions body.options)

/-! ## Vote-count views (`src/supabase/schema.sql`, 258–295) and the
fetched totals of `getPoll` / `getPolls` (`src/lib/database.ts`) -/

/-- `poll_options_with_stats.vote_count` for an option row:
`COUNT(v.id)` over `votes v` joined on `po.id = v.option_id`. -/
def viewVoteCount (votes : List DbVote) (o : DbPollOption) : Nat :=
  (votes.filter (fun v => v.option_id = o.id)).length

/-- `polls_with_stats.total_votes` for a poll row:
`COUNT(DISTINCT v.id)` over `votes v` joined on `p.id = v.poll_id`
(primary keys are distinct, so this is the number of joined rows). -/
def viewTotalVotes (votes : List DbVote) (p : DbPoll) : Nat :=
  (votes.filter (fun v => v.poll_id = p.id)).length

/-- The option rows of a poll as fetched from `poll_options_with_stats`
with `.eq('poll_id', pollId)`. -/
def pollOptions (s : Store) (pollId : String) : List DbPollOption :=
  s.options.filter (fun o => o.poll_id = pollId)

/-- `getPoll`'s reported total (`database.ts` 182):
`options.reduce((sum, option) => sum + option.vote_count, 0)`. -/
def getPollTotalVotes (s : Store) (pollId : String) : Nat :=
  ((pollOptions s pollId).map (viewVoteCount s.votes)).sum

/-- `getPolls`'s reported total for a returned poll (`database.ts` 281):
`_count: { votes: poll.total_votes }` with `total_votes` from
`polls_with_stats`. -/
def getPollsReportedVotes (s : Store) (p : DbPoll) : Nat :=
  viewTotalVotes s.votes p

/-- Referential integrity of the store, as the schema enforces it:
option primary keys are unique, every vote's `option_id` references an
existing option row (foreign key), and a vote's poll is its option's
poll (the `validate_option_poll_relationship` trigger). -/
structure StoreWF (s : Store) : Prop where
  optionIdsNodup : (s.options.map DbPollOption.id).Nodup
  voteOptionExists : ∀ v ∈ s.votes, ∃ o ∈ s.options, o.id = v.option_id
  voteOptionPoll : ∀ v ∈ s.votes, ∀ o ∈ s.options, o.id = v.option_id → o.poll_id = v.poll_id

/-! ## Theorems -/

/-- C9: for every poll record and every instant, the two independently
implemented activity computations agree: `isPollActive` returns `true`
iff `getPollStatus` returns `active`, including at the boundary where
the expiry equals the current time (both treat that poll as not
active). -/
theorem isPollActive_iff_getPollStatus_active (poll : DbPoll) (now : Int) :
    isPollActive poll now = true ↔ getPollStatus poll now = PollStatus.active := by
  unfold isPollActive getPollStatus expiresAtLe
  cases h : poll.is_active
  · simp
  · cases he : poll.expires_at with
    | none => simp
    | some t =>
      by_cases hle : t ≤ now
      · simp [hle]
      · simp [hle]
        omega

/-- C10: `calculateVotePercentage` is total on a zero total: for every
numerator, including positive ones, `calculateVotePercentage v 0 = 0`
(the zero-total guard precedes the division for any numerator). -/
theorem calculateVotePercentage_zero_total (optionVotes : Int) :
    calculateVotePercentage optionVotes 0 = 0 := rfl

/-- C7: for all integers with a positive total, `calculateVotePercentage`
is `optionVotes / totalVotes * 100` rounded half-up to the nearest
integer (`⌊x + 1/2⌋`), and on a zero total it is `0`, so
`calculateVotePercentage 0 0 = 0`. -/
theorem calculateVotePercentage_round_half_up (optionVotes totalVotes : Int) :
    (0 < totalVotes →
      calculateVotePercentage optionVotes totalVotes =
        ⌊(optionVotes : ℚ) / (totalVotes : ℚ) * 100 + 1 / 2⌋) ∧
    calculateVotePercentage optionVotes 0 = 0 := by
  refine ⟨fun ht => ?_, rfl⟩
  unfold calculateVotePercentage
  rw [if_neg (by omega : ¬ totalVotes = 0)]
  exact round_eq _

/-- Witness for C7: at `optionVotes = 1`, `totalVotes = 3` the theorem
gives `calculateVotePercentage 1 3 = ⌊100/3 + 1/2⌋` (= 33), and the
zero-total conjunct gives `calculateVotePercentage 0 0 = 0`. -/
theorem calculateVotePercentage_round_half_up_witness :
    calculateVotePercentage 1 3 = ⌊(1 : ℚ) / (3 : ℚ) * 100 + 1 / 2⌋ ∧
    calculateVotePercentage 0 0 = 0 :=
  ⟨(calculateVotePercentage_round_half_up 1 3).1 (by norm_num),
   (calculateVotePercentage_round_half_up 0 0).2⟩

/-- C2: if the option-row insert fails after the poll row was inserted,
`createPoll` deletes the just-created poll row — no poll with the new id
survives in the store, the options and votes tables are untouched — and
returns the option insert's store error to the caller. -/
theorem createPoll_option_failure_rolls_back (s : Store) (pollData : CreatePollForm)
    (userId newPollId : String) (newOptionIds : List String) :
    (createPoll s pollData userId newPollId newOptionIds false true).1 =
        Except.error CreatePollErr.optionsInsertError ∧
    (∀ q ∈ (createPoll s pollData userId newPollId newOptionIds false true).2.polls,
        q.id ≠ newPollId) ∧
    (createPoll s pollData userId newPollId newOptionIds false true).2.options = s.options ∧
    (createPoll s pollData userId newPollId newOptionIds false true).2.votes = s.votes := by
  refine ⟨rfl, ?_, rfl, rfl⟩
  intro q hq
  simp [createPoll, List.mem_filter] at hq
  exact hq.2

/-- C3: a vote submission on a single-choice poll that selects more than
one option id is rejected by the vote route with
`Multiple selections are not allowed`, and the store is left completely
unchanged — in particular no votes are inserted and the user's existing
votes on the poll are not deleted.  (The hypotheses place the submission
past the earlier gates: the poll exists, is active and is not strictly
expired, exactly the situation the claim describes.) -/
theorem votePost_multiple_not_allowed (s : Store) (pollId : String) (optionIds : List String)
    (userId : String) (now : Int) (insertFails : Bool) (poll : DbPoll)
    (hid : pollId ≠ "")
    (hfind : findPoll s pollId = some poll)
    (hsingle : poll.allow_multiple_choices = false)
    (hlen : 1 < optionIds.length)
    (hactive : poll.is_active = true)
    (hexp : expiresAtLt poll.expires_at now = false) :
    votePost s pollId optionIds userId now insertFails = (VoteOutcome.multipleNotAllowed, s) := by
  have hne : optionIds.isEmpty = false := by
    cases optionIds with
    | nil => simp at hlen
    | cons a l => rfl
  simp [votePost, hid, hne, hfind, hactive, hexp, hsingle, hlen]

/-- Witness for C3: a concrete single-choice active poll, a two-option
submission, and a pre-existing vote by the user: the route answers
`multipleNotAllowed` and the store (including that vote) is unchanged. -/
theorem votePost_multiple_not_allowed_witness :
    votePost
        { polls := [{ id := "p1", title := "t", creator_id := "c", is_active := true,
                      allow_multiple_choices := false, expires_at := none }],
          options := [],
          votes := [{ user_id := "u1", poll_id := "p1", option_id := "o1" }] }
        "p1" ["o1", "o2"] "u1" 0 false =
      (VoteOutcome.multipleNotAllowed,
        { polls := [{ id := "p1", title := "t", creator_id := "c", is_active := true,
                      allow_multiple_choices := false, expires_at := none }],
          options := [],
          votes := [{ user_id := "u1", poll_id := "p1", option_id := "o1" }] }) :=
  votePost_multiple_not_allowed _ "p1" ["o1", "o2"] "u1" 0 false
    { id := "p1", title := "t", creator_id := "c", is_active := true,
      allow_multiple_choices := false, expires_at := none }
    (by decide) rfl rfl (by decide) rfl rfl

/-- The vote route never writes the `polls` table. -/
theorem votePost_polls_unchanged (s : Store) (pollId : String) (optionIds : List String)
    (userId : String) (now : Int) (insertFails : Bool) :
    (votePost s pollId optionIds userId now insertFails).2.polls = s.polls := by
  unfold votePost
  split
  · rfl
  · split
    · rfl
    · split
      · rfl
      · split
        · rfl
        · split
          · rfl
          · split
            · split <;> rfl
            · split <;> rfl

/-- Deleting a user's votes on a poll leaves none of that user's votes on
that poll. -/
theorem countUserPollVotes_delete (s : Store) (p u : String) :
    countUserPollVotes (deleteUserVotes s p u) u p = 0 := by
  simp only [countUserPollVotes, deleteUserVotes, List.filter_filter, List.length_eq_zero,
    List.filter_eq_nil_iff]
  intro v hv
  simp only [Bool.and_eq_true, decide_eq_true_eq, Bool.not_eq_true', Bool.and_eq_false_iff,
    decide_eq_false_iff_not]
  intro h
  tauto

/-- One accepted or rejected vote-route submission by user `u` on a
single-choice poll `p` leaves `u` with at most one vote on `p`. -/
theorem votePost_single_choice_step (s : Store) (p : String) (ids : List String) (u : String)
    (now : Int) (poll : DbPoll)
    (hfind : findPoll s p = some poll)
    (hsingle : poll.allow_multiple_choices = false)
    (hinit : countUserPollVotes s u p ≤ 1) :
    countUserPollVotes (votePost s p ids u now false).2 u p ≤ 1 := by
  unfold votePost
  split
  · exact hinit
  · rw [hfind]
    split
    · exact hinit
    next poll' heq =>
      injection heq with heq
      subst heq
      split
      · exact hinit
      · split
        · exact hinit
        · split
          · exact hinit
          next hmulti =>
            have hlen : ids.length ≤ 1 := by
              by_contra hgt
              apply hmulti
              simp only [hsingle, Bool.not_false, Bool.true_and, decide_eq_true_eq]
              omega
            have hdel : (if (!poll.allow_multiple_choices) = true
                then deleteUserVotes s p u else s) = deleteUserVotes s p u := by
              rw [hsingle]
              rfl
            rw [if_neg (by simp : ¬ (false = true)), hdel]
            have h0 : countUserPollVotes (deleteUserVotes s p u) u p = 0 :=
              countUserPollVotes_delete s p u
            simp only [countUserPollVotes, List.filter_append, List.length_append] at h0 ⊢
            rw [h0, Nat.zero_add]
            calc ((votesData p ids u).filter (fun v => v.user_id = u && v.poll_id = p)).length
                ≤ (votesData p ids u).length := List.length_filter_le _ _
              _ = ids.length := by simp [votesData]
              _ ≤ 1 := hlen

/-- C1 as amended: through the vote route — which rejects a multi-option
selection on a single-choice poll before inserting anything — any
sequence of submissions by the same user on a single-choice poll leaves
at most one vote by that user on that poll (each accepted submission
deletes the user's prior votes on the poll and inserts the single
selected one).  The unguarded repository function `castVote` does not by
itself maintain this bound (see the counterexample). -/
theorem votePost_single_choice_at_most_one_vote (s : Store) (p u : String) (now : Int)
    (subs : List (List String)) (poll : DbPoll)
    (hfind : findPoll s p = some poll)
    (hsingle : poll.allow_multiple_choices = false)
    (hinit : countUserPollVotes s u p ≤ 1) :
    countUserPollVotes (runVoteSubs s p u now subs) u p ≤ 1 := by
  induction subs generalizing s with
  | nil => exact hinit
  | cons ids rest ih =>
    have hfind' : findPoll (votePost s p ids u now false).2 p = some poll := by
      unfold findPoll
      rw [votePost_polls_unchanged]
      exact hfind
    exact ih _ hfind' (votePost_single_choice_step s p ids u now poll hfind hsingle hinit)

/-- A successful per-row vote insert only appends the row to the votes
table; polls and options are untouched. -/
theorem insertVoteRow_some (s : Store) (r : DbVote) (now : Int) (s1 : Store)
    (h : insertVoteRow s r now = some s1) :
    s1.polls = s.polls ∧ s1.options = s.options ∧ s1.votes = s.votes ++ [r] := by
  unfold insertVoteRow at h
  split at h
  · exact Option.noConfusion h
  · split at h
    · exact Option.noConfusion h
    · split at h
      · exact Option.noConfusion h
      · split at h
        · exact Option.noConfusion h
        · split at h
          · exact Option.noConfusion h
          · injection h with h
            subst h
            exact ⟨rfl, rfl, rfl⟩

/-- On a single-choice poll, the `validate_vote` trigger raises for a
vote row by a user who already has a vote on the poll — the statement
row insert yields `none` whatever the option checks say. -/
theorem insertVoteRow_blocked (s : Store) (u p i : String) (now : Int) (poll : DbPoll)
    (hfind : findPoll s p = some poll)
    (hsingle : poll.allow_multiple_choices = false)
    (hhas : s.votes.any (fun v => v.user_id = u && v.poll_id = p) = true) :
    insertVoteRow s { user_id := u, poll_id := p, option_id := i } now = none := by
  simp [insertVoteRow, hfind, hsingle, hhas]

/-- A successful multi-row vote insert leaves the polls table unchanged. -/
theorem insertVotes_polls (s : Store) (rows : List DbVote) (now : Int) (s2 : Store)
    (h : insertVotes s rows now = some s2) : s2.polls = s.polls := by
  induction rows generalizing s with
  | nil =>
    simp only [insertVotes, Option.some.injEq] at h
    subst h
    rfl
  | cons r rest ih =>
    simp only [insertVotes] at h
    split at h
    · exact Option.noConfusion h
    next s1 hrow =>
      rw [ih _ h, (insertVoteRow_some _ _ _ _ hrow).1]

/-- `castVote` never writes the `polls` table. -/
theorem castVote_polls_unchanged (s : Store) (pollId : String) (voteData : VoteForm)
    (userId : String) (now : Int) :
    (castVote s pollId voteData userId now).2.polls = s.polls := by
  unfold castVote
  split
  · rfl
  next poll heq =>
    split
    · rfl
    · split
      · rfl
      · dsimp only
        cases hc : !poll.allow_multiple_choices
        · rw [if_neg (by simp : ¬ (false = true))]
          split
          next s2 hins => exact insertVotes_polls _ _ _ _ hins
          next hins => rfl
        · rw [if_pos (rfl : true = true)]
          split
          next s2 hins =>
            rw [insertVotes_polls _ _ _ _ hins]
            rfl
          next hins => rfl

/-- The store-side single-choice protection: a batch insert of vote rows
by user `u` on single-choice poll `p`, starting from a store where `u`
has no vote on `p`, can only succeed when the batch has at most one row
(the second row's trigger sees the first and raises, aborting the
statement), and then it leaves `u` with at most one vote on `p`. -/
theorem insertVotes_votesData_single (s : Store) (p u : String) (ids : List String)
    (now : Int) (poll : DbPoll) (s2 : Store)
    (hfind : findPoll s p = some poll)
    (hsingle : poll.allow_multiple_choices = false)
    (hzero : countUserPollVotes s u p = 0)
    (hsucc : insertVotes s (votesData p ids u) now = some s2) :
    countUserPollVotes s2 u p ≤ 1 := by
  match ids with
  | [] =>
    simp only [votesData, List.map_nil, insertVotes, Option.some.injEq] at hsucc
    subst hsucc
    omega
  | [i] =>
    simp only [votesData, List.map_cons, List.map_nil, insertVotes] at hsucc
    split at hsucc
    · exact Option.noConfusion hsucc
    next s1 hrow =>
      simp only [Option.some.injEq] at hsucc
      subst hsucc
      have hv := (insertVoteRow_some _ _ _ _ hrow).2.2
      simp only [countUserPollVotes] at hzero ⊢
      rw [hv, List.filter_append, List.length_append, hzero]
      simp
  | i1 :: i2 :: rest =>
    exfalso
    simp only [votesData, List.map_cons, insertVotes] at hsucc
    split at hsucc
    · exact Option.noConfusion hsucc
    next s1 hrow =>
      obtain ⟨hp, ho, hv⟩ := insertVoteRow_some _ _ _ _ hrow
      have hfind1 : findPoll s1 p = some poll := by
        unfold findPoll
        rw [hp]
        exact hfind
      have hhas : s1.votes.any (fun v => v.user_id = u && v.poll_id = p) = true := by
        rw [hv]
        simp
      rw [insertVoteRow_blocked s1 u p i2 now poll hfind1 hsingle hhas] at hsucc
      exact Option.noConfusion hsucc

/-- One `castVote` submission by user `u` on a single-choice poll `p`
leaves `u` with at most one vote on `p`: rejections leave the store
unchanged, and an accepted submission deletes `u`'s votes on `p` and
then runs the store's protected batch insert. -/
theorem castVote_single_choice_step (s : Store) (p : String) (ids : List String) (u : String)
    (now : Int) (poll : DbPoll)
    (hfind : findPoll s p = some poll)
    (hsingle : poll.allow_multiple_choices = false)
    (hinit : countUserPollVotes s u p ≤ 1) :
    countUserPollVotes (castVote s p { option_ids := ids } u now).2 u p ≤ 1 := by
  unfold castVote
  rw [hfind]
  split
  · exact hinit
  next poll' heq =>
    injection heq with heq
    subst heq
    split
    · exact hinit
    · split
      · exact hinit
      · have hdel : (if (!poll.allow_multiple_choices) = true
            then deleteUserVotes s p u else s) = deleteUserVotes s p u := by
          rw [hsingle]
          rfl
        rw [hdel]
        dsimp only
        split
        next s2 hins =>
          show countUserPollVotes s2 u p ≤ 1
          exact insertVotes_votesData_single (deleteUserVotes s p u) p u ids now poll s2
            (by unfold findPoll
                exact hfind)
            hsingle (countUserPollVotes_delete s p u) hins
        next hins =>
          show countUserPollVotes (deleteUserVotes s p u) u p ≤ 1
          rw [countUserPollVotes_delete]
          omega

/-- C1: for every poll whose `allow_multiple_choices` flag is false,
after any sequence of `castVote` submissions by the same user on that
poll, at most one vote by that user exists for that poll.  Each
accepted submission replaces the prior vote (delete then insert), and a
multi-option submission cannot accumulate votes because the store's
`validate_vote` trigger aborts the batch insert at its second row. -/
theorem castVote_single_choice_at_most_one_vote (s : Store) (p u : String) (now : Int)
    (subs : List (List String)) (poll : DbPoll)
    (hfind : findPoll s p = some poll)
    (hsingle : poll.allow_multiple_choices = false)
    (hinit : countUserPollVotes s u p ≤ 1) :
    countUserPollVotes (runCastVotes s p u now subs) u p ≤ 1 := by
  induction subs generalizing s with
  | nil => exact hinit
  | cons ids rest ih =>
    have hfind1 : findPoll (castVote s p { option_ids := ids } u now).2 p = some poll := by
      unfold findPoll
      rw [castVote_polls_unchanged]
      exact hfind
    exact ih _ hfind1 (castVote_single_choice_step s p ids u now poll hfind hsingle hinit)

/-- Witness for C1: on a fresh store with one single-choice poll and its
two options, the submission sequence `["o1"]`, `["o1","o2"]` (whose
batch insert the trigger aborts), `["o2"]` leaves the user with at most
one vote. -/
theorem castVote_single_choice_at_most_one_vote_witness :
    countUserPollVotes
        (runCastVotes
          { polls := [{ id := "p1", title := "t", creator_id := "c", is_active := true,
                        allow_multiple_choices := false, expires_at := none }],
            options := [{ id := "o1", poll_id := "p1", text := "a", order := 0 },
                        { id := "o2", poll_id := "p1", text := "b", order := 1 }],
            votes := [] }
          "p1" "u1" 0 [["o1"], ["o1", "o2"], ["o2"]])
        "u1" "p1" ≤ 1 :=
  castVote_single_choice_at_most_one_vote
    { polls := [{ id := "p1", title := "t", creator_id := "c", is_active := true,
                  allow_multiple_choices := false, expires_at := none }],
      options := [{ id := "o1", poll_id := "p1", text := "a", order := 0 },
                  { id := "o2", poll_id := "p1", text := "b", order := 1 }],
      votes := [] }
    "p1" "u1" 0 [["o1"], ["o1", "o2"], ["o2"]]
    { id := "p1", title := "t", creator_id := "c", is_active := true,
      allow_multiple_choices := false, expires_at := none }
    rfl rfl (by decide)

/-- A list of length at most one has no duplicates. -/
theorem nodup_of_length_le_one {α : Type} (l : List α) (h : l.length ≤ 1) : l.Nodup := by
  match l with
  | [] => exact List.nodup_nil
  | [a] => exact List.nodup_singleton a
  | a :: b :: t => simp at h

/-- `new Set(l).size == l.length` exactly when `l` has no duplicates. -/
theorem setSize_eq_length_iff (l : List String) : setSize l = l.length ↔ l.Nodup := by
  constructor
  · intro h
    have hsub : l.dedup.Sublist l := List.dedup_sublist l
    have hd : l.dedup = l := hsub.eq_of_length h
    rw [← hd]
    exact l.nodup_dedup
  · intro h
    rw [setSize, List.dedup_eq_self.mpr h]

/-- C8 counterexample: the input `title = "t"`,
`options = ["a", "b", " ", " "]` has trimmed option texts
`["a", "b", "", ""]` that are *not* all distinct (two empties), yet the
creation route accepts it (`ok` with options `["a", "b"]`) instead of
failing with `DuplicateOptions`: whitespace-only options are discarded
by `filter(Boolean)` before the uniqueness check. -/
theorem validateCreate_blank_duplicates_counterexample :
    ¬ ((["a", "b", " ", " "].map jsTrim).Nodup) ∧
    validateCreatePollRequest
        { title := "t", options := ["a", "b", " ", " "], allowMultipleChoices := false,
          expiresAt := none } 0 =
      Except.ok ("t", ["a", "b"]) ∧
    validateCreatePollRequest
        { title := "t", options := ["a", "b", " ", " "], allowMultipleChoices := false,
          expiresAt := none } 0 ≠
      Except.error CreateValidationErr.duplicateOptions := by
  refine ⟨by decide, rfl, ?_⟩
  intro h
  rw [show validateCreatePollRequest
        { title := "t", options := ["a", "b", " ", " "], allowMultipleChoices := false,
          expiresAt := none } 0 =
      Except.ok ("t", ["a", "b"]) from rfl] at h
  exact Except.noConfusion h

/-- C8 as amended: on an input that passes the title and option-count
checks, the creation route fails with `DuplicateOptions` exactly for
duplicates among the *non-empty* trimmed options, compared
case-insensitively: if the cleaned (trimmed, non-empty) options are not
all distinct under `toLowerCase` the route answers `DuplicateOptions`,
and if all trimmed options (empties included) are distinct under
`toLowerCase` that failure cannot occur. -/
theorem validateCreate_duplicateOptions_iff (body : CreatePollData) (now : Int)
    (htitle : jsTrim body.title ≠ "")
    (hlen2 : 2 ≤ body.options.length) (hlen10 : body.options.length ≤ 10) :
    (¬ ((cleanedOptions body.options).map jsToLower).Nodup →
      validateCreatePollRequest body now = Except.error CreateValidationErr.duplicateOptions) ∧
    ((body.options.map (fun o => jsToLower (jsTrim o))).Nodup →
      validateCreatePollRequest body now ≠ Except.error CreateValidationErr.duplicateOptions) := by
  constructor
  · intro hdup
    have hclean2 : 2 ≤ (cleanedOptions body.options).length := by
      by_contra hlt
      exact hdup (nodup_of_length_le_one _ (by simp; omega))
    unfold validateCreatePollRequest
    rw [if_neg htitle, if_neg (by omega), if_neg (by omega), if_neg (by omega),
      if_pos (by
        simp only [Bool.not_eq_true', decide_eq_false_iff_not]
        intro hsz
        exact hdup ((setSize_eq_length_iff _).mp
          (by rw [hsz, List.length_map])))]
  · intro hnodup
    have hsub : ((cleanedOptions body.options).map jsToLower).Sublist
        (body.options.map (fun o => jsToLower (jsTrim o))) := by
      have h1 : (cleanedOptions body.options).Sublist (body.options.map jsTrim) :=
        List.filter_sublist _
      have h2 := h1.map jsToLower
      rwa [List.map_map] at h2
    have hcleanNodup : ((cleanedOptions body.options).map jsToLower).Nodup :=
      hnodup.sublist hsub
    have hsz : setSize ((cleanedOptions body.options).map jsToLower) =
        (cleanedOptions body.options).length := by
      rw [(setSize_eq_length_iff _).mpr hcleanNodup, List.length_map]
    unfold validateCreatePollRequest
    rw [if_neg htitle, if_neg (by omega), if_neg (by omega)]
    by_cases hfew : (cleanedOptions body.options).length < 2
    · rw [if_pos hfew]
      simp
    · rw [if_neg hfew, if_neg (by simp [hsz])]
      match body.expiresAt with
      | some t =>
          by_cases hle : t ≤ now
          · simp only [hle, if_true]
            simp
          · simp only [hle, if_false]
            simp
      | none => simp

/-- Witness for C8's amended theorem: `["x", "X"]` (case-insensitive
duplicates) is rejected with `DuplicateOptions`; `["x", "y"]` is not. -/
theorem validateCreate_duplicateOptions_iff_witness :
    validateCreatePollRequest
        { title := "t", options := ["x", "X"], allowMultipleChoices := false,
          expiresAt := none } 0 =
      Except.error CreateValidationErr.duplicateOptions ∧
    validateCreatePollRequest
        { title := "t", options := ["x", "y"], allowMultipleChoices := false,
          expiresAt := none } 0 ≠
      Except.error CreateValidationErr.duplicateOptions :=
  ⟨(validateCreate_duplicateOptions_iff
      { title := "t", options := ["x", "X"], allowMultipleChoices := false, expiresAt := none }
      0 (by decide) (by decide) (by decide)).1 (by decide),
   (validateCreate_duplicateOptions_iff
      { title := "t", options := ["x", "y"], allowMultipleChoices := false, expiresAt := none }
      0 (by decide) (by decide) (by decide)).2 (by decide)⟩

/-- Dropping a prefix of `p`-satisfying elements twice is the same as
dropping it once. -/
theorem dropWhile_dropWhile {α : Type} (p : α → Bool) (l : List α) :
    (l.dropWhile p).dropWhile p = l.dropWhile p := by
  induction l with
  | nil => rfl
  | cons a t ih =>
    cases h : p a
    · simp [List.dropWhile_cons, h]
    · simp [List.dropWhile_cons, h, ih]

/-- If `dropWhile p` fixes a list, it fixes every prefix of it. -/
theorem dropWhile_eq_self_of_isPrefixOf {α : Type} (p : α → Bool) {l₁ l₂ : List α}
    (hpre : l₁ <+: l₂) (h : l₂.dropWhile p = l₂) : l₁.dropWhile p = l₁ := by
  cases l₁ with
  | nil => rfl
  | cons a t =>
    obtain ⟨r, hr⟩ := hpre
    subst hr
    cases hp : p a
    · simp [List.dropWhile_cons, hp]
    · rw [List.cons_append, List.dropWhile_cons, hp, if_pos rfl] at h
      have hsuf : (t ++ r).dropWhile p <:+ (t ++ r) := List.dropWhile_suffix p
      have hle := hsuf.sublist.length_le
      rw [h] at hle
      simp at hle

/-- Trimming is idempotent on character lists. -/
theorem trimChars_idem (l : List Char) : trimChars (trimChars l) = trimChars l := by
  unfold trimChars
  have h1 : (l.dropWhile isJsWhitespace).dropWhile isJsWhitespace =
      l.dropWhile isJsWhitespace := dropWhile_dropWhile _ l
  have hpre : ((l.dropWhile isJsWhitespace).reverse.dropWhile isJsWhitespace).reverse <+:
      l.dropWhile isJsWhitespace := by
    have hsuf : (l.dropWhile isJsWhitespace).reverse.dropWhile isJsWhitespace <:+
        (l.dropWhile isJsWhitespace).reverse := List.dropWhile_suffix _
    have hrev := List.reverse_prefix.mpr hsuf
    rwa [List.reverse_reverse] at hrev
  rw [dropWhile_eq_self_of_isPrefixOf _ hpre h1, List.reverse_reverse,
    dropWhile_dropWhile]

/-- `trim(trim(s)) = trim(s)`. -/
theorem jsTrim_idem (s : String) : jsTrim (jsTrim s) = jsTrim s :=
  congrArg String.mk (trimChars_idem s.data)

/-- When no option is whitespace-only, `cleanedOptions` keeps them all:
it is exactly the trimmed list. -/
theorem cleanedOptions_of_nonempty (options : List String)
    (h : ∀ o ∈ options, jsTrim o ≠ "") :
    cleanedOptions options = options.map jsTrim := by
  unfold cleanedOptions
  rw [List.filter_eq_self]
  intro a ha
  obtain ⟨o, ho, rfl⟩ := List.mem_map.mp ha
  simpa using h o ho

/-- The texts of `createPoll`'s option rows are the submitted texts,
trimmed, in submitted order. -/
theorem optionsData_map_text (pollId : String) (texts newIds : List String) (i : Nat)
    (h : texts.length ≤ newIds.length) :
    (optionsData pollId texts newIds i).map DbPollOption.text = texts.map jsTrim := by
  induction texts generalizing newIds i with
  | nil => rfl
  | cons t ts ih =>
    cases newIds with
    | nil => simp at h
    | cons oid oids =>
      simp only [optionsData, List.map_cons]
      rw [ih oids (i + 1) (by simpa using h)]

/-- The `order` values of `createPoll`'s option rows count up from the
starting index. -/
theorem optionsData_map_order (pollId : String) (texts newIds : List String) (i : Nat)
    (h : texts.length ≤ newIds.length) :
    (optionsData pollId texts newIds i).map DbPollOption.order =
      List.range' i texts.length := by
  induction texts generalizing newIds i with
  | nil => rfl
  | cons t ts ih =>
    cases newIds with
    | nil => simp at h
    | cons oid oids =>
      simp only [optionsData, List.map_cons, List.length_cons, List.range'_succ]
      rw [ih oids (i + 1) (by simpa using h)]

/-- C5: for every valid poll creation input — non-blank title, 2–10
options none of which trims to empty, case-insensitively distinct
trimmed options, expiry absent or strictly in the future — the creation
route's validation accepts and hands over exactly the trimmed options,
and `createPoll` (when the store does not fail) succeeds with option
rows whose texts are the submitted texts, trimmed, in submitted order,
and whose `order` values are `0..N-1`. -/
theorem createPoll_valid_input (body : CreatePollData) (now : Int)
    (s : Store) (userId newPollId : String) (newOptionIds : List String)
    (htitle : jsTrim body.title ≠ "")
    (hlen2 : 2 ≤ body.options.length) (hlen10 : body.options.length ≤ 10)
    (hne : ∀ o ∈ body.options, jsTrim o ≠ "")
    (hdistinct : (body.options.map (fun o => jsToLower (jsTrim o))).Nodup)
    (hexp : ∀ t, body.expiresAt = some t → now < t)
    (hids : body.options.length ≤ newOptionIds.length) :
    validateCreatePollRequest body now =
      Except.ok (jsTrim body.title, body.options.map jsTrim) ∧
    ∃ poll opts,
      (createPoll s
          { title := jsTrim body.title, description := none,
            options := cleanedOptions body.options,
            allow_multiple_choices := body.allowMultipleChoices,
            expires_at := body.expiresAt }
          userId newPollId newOptionIds false false).1 = Except.ok (poll, opts) ∧
      opts.map DbPollOption.text = body.options.map jsTrim ∧
      opts.map DbPollOption.order = List.range body.options.length := by
  have hclean : cleanedOptions body.options = body.options.map jsTrim :=
    cleanedOptions_of_nonempty _ hne
  have hcleanlen : (cleanedOptions body.options).length = body.options.length := by
    rw [hclean, List.length_map]
  have hnodupLower : ((cleanedOptions body.options).map jsToLower).Nodup := by
    rw [hclean, List.map_map]
    exact hdistinct
  have hss : setSize ((cleanedOptions body.options).map jsToLower) =
      (cleanedOptions body.options).length := by
    rw [(setSize_eq_length_iff _).mpr hnodupLower, List.length_map]
  constructor
  · rw [← hclean]
    unfold validateCreatePollRequest
    rw [if_neg htitle, if_neg (by omega), if_neg (by omega), if_neg (by omega),
      if_neg (by simp [hss])]
    split
    · rename_i t' heq
      rw [if_neg (by have := hexp t' heq; omega)]
    · rfl
  · refine ⟨_, optionsData newPollId (cleanedOptions body.options) newOptionIds 0, rfl, ?_, ?_⟩
    · rw [optionsData_map_text _ _ _ _ (by omega), hclean, List.map_map]
      have hcomp : jsTrim ∘ jsTrim = jsTrim := funext jsTrim_idem
      rw [hcomp]
    · rw [optionsData_map_order _ _ _ _ (by omega), hcleanlen, List.range_eq_range']

/-- Witness for C5: the input `title = "Lang?"`, `options = ["Go", "Rust"]`
is accepted and produces option rows `"Go"`, `"Rust"` with `order` 0, 1. -/
theorem createPoll_valid_input_witness :
    validateCreatePollRequest
        { title := "Lang?", options := ["Go", "Rust"], allowMultipleChoices := false,
          expiresAt := none } 0 =
      Except.ok (jsTrim "Lang?", ["Go", "Rust"].map jsTrim) ∧
    ∃ poll opts,
      (createPoll { polls := [], options := [], votes := [] }
          { title := jsTrim "Lang?", description := none,
            options := cleanedOptions ["Go", "Rust"],
            allow_multiple_choices := false, expires_at := none }
          "u1" "p1" ["oA", "oB"] false false).1 = Except.ok (poll, opts) ∧
      opts.map DbPollOption.text = ["Go", "Rust"].map jsTrim ∧
      opts.map DbPollOption.order = List.range (["Go", "Rust"].length) :=
  createPoll_valid_input
    { title := "Lang?", options := ["Go", "Rust"], allowMultipleChoices := false,
      expiresAt := none }
    0 { polls := [], options := [], votes := [] } "u1" "p1" ["oA", "oB"]
    (by decide) (by decide) (by decide) (by decide) (by decide)
    (fun t h => nomatch h) (by decide)

/-- A sum over `Nat`-valued functions distributes over a `List.map`. -/
theorem sum_map_add {α : Type} (f g : α → Nat) (l : List α) :
    (l.map (fun a => f a + g a)).sum = (l.map f).sum + (l.map g).sum := by
  induction l with
  | nil => rfl
  | cons a t ih =>
    simp only [List.map_cons, List.sum_cons, ih]
    omega

/-- Summing the indicator of `id = x` over option rows counts the rows
with that id. -/
theorem sum_ite_id_count (x : String) (opts : List DbPollOption) :
    (opts.map (fun o => if x = o.id then 1 else 0)).sum =
      opts.countP (fun o => x = o.id) := by
  induction opts with
  | nil => rfl
  | cons o os ih =>
    rw [List.map_cons, List.sum_cons, ih, List.countP_cons]
    by_cases h : x = o.id <;> simp [h, Nat.add_comm]

/-- Double counting: if every vote matches exactly the options its
`option_id` points at — one option of the poll when the vote is on the
poll, none otherwise — then summing per-option match counts over the
options equals counting the votes on the poll. -/
theorem sum_countP_votes (votes : List DbVote) (opts : List DbPollOption) (pid : String)
    (H : ∀ v ∈ votes, opts.countP (fun o => v.option_id = o.id) =
        if v.poll_id = pid then 1 else 0) :
    (opts.map (fun o => votes.countP (fun v => v.option_id = o.id))).sum =
      votes.countP (fun v => v.poll_id = pid) := by
  induction votes with
  | nil => simp
  | cons v vs ih =>
    have hv := H v (List.mem_cons_self v vs)
    have ihs := ih (fun w hw => H w (List.mem_cons_of_mem v hw))
    simp only [List.countP_cons, decide_eq_true_eq]
    rw [sum_map_add, ihs, sum_ite_id_count, hv]

/-- With unique option ids, at most one option row has a given id. -/
theorem countP_id_le_one (opts : List DbPollOption)
    (hnodup : (opts.map DbPollOption.id).Nodup) (x : String) :
    opts.countP (fun o => x = o.id) ≤ 1 := by
  induction opts with
  | nil => simp
  | cons o os ih =>
    rw [List.map_cons, List.nodup_cons] at hnodup
    rw [List.countP_cons]
    by_cases h : x = o.id
    · have hz : os.countP (fun o' => x = o'.id) = 0 := by
        rw [List.countP_eq_zero]
        intro o' ho'
        simp only [decide_eq_true_eq]
        intro hxo
        apply hnodup.1
        have heq : o.id = o'.id := by rw [← h, hxo]
        rw [heq]
        exact List.mem_map_of_mem DbPollOption.id ho'
      rw [hz]
      simp [h]
    · have hd : (decide (x = o.id)) = false := by simp [h]
      rw [hd]
      simpa using ih hnodup.2

/-- C6: for every fetched poll, the sum of the per-option vote counts
(the `poll_options_with_stats` counts that `getPoll` reduces over) over
all of the poll's options equals the poll's reported total vote count
(`getPoll` reports that very sum; `getPolls` reports
`polls_with_stats.total_votes`, the count of vote rows referencing the
poll).  The hypotheses are the store's own integrity guarantees: unique
option primary keys, the votes→options foreign key, and the
option-belongs-to-poll trigger. -/
theorem fetched_poll_total_votes_agree (s : Store) (p : DbPoll) (hwf : StoreWF s) :
    getPollTotalVotes s p.id = getPollsReportedVotes s p := by
  unfold getPollTotalVotes getPollsReportedVotes viewTotalVotes pollOptions viewVoteCount
  simp only [← List.countP_eq_length_filter]
  apply sum_countP_votes
  intro v hv
  rw [List.countP_filter]
  by_cases hp : v.poll_id = p.id
  · rw [if_pos hp]
    obtain ⟨o₀, ho₀, hid⟩ := hwf.voteOptionExists v hv
    have hpoll : o₀.poll_id = v.poll_id := hwf.voteOptionPoll v hv o₀ ho₀ hid
    have hub : s.options.countP (fun o => v.option_id = o.id && o.poll_id = p.id) ≤ 1 := by
      calc s.options.countP (fun o => v.option_id = o.id && o.poll_id = p.id)
          ≤ s.options.countP (fun o => v.option_id = o.id) := by
            apply List.countP_mono_left
            intro o ho hcond
            simp only [Bool.and_eq_true] at hcond
            exact hcond.1
        _ ≤ 1 := countP_id_le_one s.options hwf.optionIdsNodup v.option_id
    have hlb : 0 < s.options.countP (fun o => v.option_id = o.id && o.poll_id = p.id) := by
      rw [List.countP_pos_iff]
      exact ⟨o₀, ho₀, by simp [hid.symm, hpoll, hp]⟩
    omega
  · rw [if_neg hp, List.countP_eq_zero]
    intro o ho
    simp only [Bool.and_eq_true, decide_eq_true_eq, not_and]
    intro hido hopid
    exact hp ((hwf.voteOptionPoll v hv o ho hido.symm) ▸ hopid)

/-- Witness for C6: a store with one poll, two options and three votes
(two on the first option, one on the second): the summed per-option
counts and the reported poll total both come to 3. -/
theorem fetched_poll_total_votes_agree_witness :
    getPollTotalVotes
        { polls := [{ id := "P", title := "t", creator_id := "c", is_active := true,
                      allow_multiple_choices := true, expires_at := none }],
          options := [{ id := "o1", poll_id := "P", text := "a", order := 0 },
                      { id := "o2", poll_id := "P", text := "b", order := 1 }],
          votes := [{ user_id := "u1", poll_id := "P", option_id := "o1" },
                    { user_id := "u2", poll_id := "P", option_id := "o1" },
                    { user_id := "u3", poll_id := "P", option_id := "o2" }] }
        "P" =
      getPollsReportedVotes
        { polls := [{ id := "P", title := "t", creator_id := "c", is_active := true,
                      allow_multiple_choices := true, expires_at := none }],
          options := [{ id := "o1", poll_id := "P", text := "a", order := 0 },
                      { id := "o2", poll_id := "P", text := "b", order := 1 }],
          votes := [{ user_id := "u1", poll_id := "P", option_id := "o1" },
                    { user_id := "u2", poll_id := "P", option_id := "o1" },
                    { user_id := "u3", poll_id := "P", option_id := "o2" }] }
        { id := "P", title := "t", creator_id := "c", is_active := true,
          allow_multiple_choices := true, expires_at := none } :=
  fetched_poll_total_votes_agree
    { polls := [{ id := "P", title := "t", creator_id := "c", is_active := true,
                  allow_multiple_choices := true, expires_at := none }],
      options := [{ id := "o1", poll_id := "P", text := "a", order := 0 },
                  { id := "o2", poll_id := "P", text := "b", order := 1 }],
      votes := [{ user_id := "u1", poll_id := "P", option_id := "o1" },
                { user_id := "u2", poll_id := "P", option_id := "o1" },
                { user_id := "u3", poll_id := "P", option_id := "o2" }] }
    { id := "P", title := "t", creator_id := "c", is_active := true,
      allow_multiple_choices := true, expires_at := none }
    { optionIdsNodup := by decide
      voteOptionExists := by decide
      voteOptionPoll := by decide }

end Polls
